import Mathlib

/-!
# vite.config.js

A shallow embedding of the configuration callback exported by
`src/vite.config.js` (the arrow function handed to `defineConfig`, lines 7-29).

JavaScript objects are mutable and have identity, and the callback first
creates `config` from an object literal and then, in build mode, assigns
`config.build`.  The embedding therefore threads an explicit heap: every
object or array literal allocates a fresh cell, and the assignment updates
the cell of `config` in place.  The results of the imported functions
(`vue`, `vueDevTools`, `fileURLToPath`, `URL`) and `import.meta.url` are
parameters of the embedding.
-/

namespace ViteConfig

/-! ## Data model -/

/-- Address of a heap cell. -/
abbrev Ref := Nat

/-- Values without a modelled interior: the JavaScript primitives, and host
objects produced by imported code (a plugin instance), named by a tag. -/
inductive Atom where
  | undefined
  | null
  | bool (b : Bool)
  | num (n : Int)
  | str (s : String)
  | host (tag : String)
  deriving DecidableEq, Repr

/-- A JavaScript value: an atom, or a reference to an object or array. -/
inductive Val where
  | atom (a : Atom)
  | ref (r : Ref)
  deriving DecidableEq, Repr

/-- The own properties of an object, in insertion order. -/
abbrev Props := List (String × Val)

/-- A heap cell: a plain object or an array. -/
inductive Cell where
  | obj (props : Props)
  | arr (elems : List Val)
  deriving DecidableEq, Repr

/-- The heap: the cell at address `r` is the `r`-th element. -/
abbrev Heap := List Cell

/-- What the imported modules provide: the value returned by `vue()`, the
value returned by `vueDevTools()`, the value of `import.meta.url`, the
constructor `new URL(relative, base)` (its result is given by its href) and
`fileURLToPath`. -/
structure Externals where
  vue : String
  vueDevTools : String
  importMetaUrl : String
  URL : String → String → String
  fileURLToPath : String → String

/-! ## Operations -/

/-- The string literal `s` as a value. -/
def lit (s : String) : Val := .atom (.str s)

/-- The operator `===`: same kind and same value for atoms, same address for
references.  Numbers are integers here, so no number differs from itself. -/
def strictEquals : Val → Val → Bool
  | .atom .undefined, .atom .undefined => true
  | .atom .null, .atom .null => true
  | .atom (.bool a), .atom (.bool b) => a == b
  | .atom (.num a), .atom (.num b) => a == b
  | .atom (.str a), .atom (.str b) => a == b
  | .atom (.host a), .atom (.host b) => a == b
  | .ref a, .ref b => a == b
  | _, _ => false

/-- Reading property `k` of an object: `undefined` when it has none. -/
def getProp : Props → String → Val
  | [], _ => .atom .undefined
  | (k', v) :: ps, k => if k' = k then v else getProp ps k

/-- Writing property `k` of an object: an existing property keeps its place,
a new one goes last. -/
def putProp : Props → String → Val → Props
  | [], k, v => [(k, v)]
  | (k', v') :: ps, k, v =>
    if k' = k then (k', v) :: ps else (k', v') :: putProp ps k v

/-- Evaluating an object or array literal: a fresh cell at the next address. -/
def alloc (h : Heap) (c : Cell) : Ref × Heap := (h.length, h ++ [c])

/-- The assignment `o.k = v` for the object at address `r`. -/
def assign (h : Heap) (r : Ref) (k : String) (v : Val) : Heap :=
  match h[r]? with
  | some (.obj ps) => h.set r (.obj (putProp ps k v))
  | _ => h

/-- The callback of `vite.config.js`.  `arg` holds the properties of the
argument object, destructured as `{ command, mode }`: a property the object
lacks reads as `undefined`, and `mode` is bound but never used. -/
def configFn (E : Externals) (arg : Props) (h : Heap) : Val × Heap :=
  let command := getProp arg "command"
  let _mode := getProp arg "mode"
  let (plugins, h) := alloc h (.arr [.atom (.host E.vue), .atom (.host E.vueDevTools)])
  let (aliasObj, h) := alloc h (.obj [("@", lit (E.fileURLToPath (E.URL "./src" E.importMetaUrl)))])
  let (resolve, h) := alloc h (.obj [("alias", .ref aliasObj)])
  let (config, h) := alloc h (.obj [("plugins", .ref plugins), ("resolve", .ref resolve)])
  if strictEquals command (lit "build") then
    let (build, h) := alloc h (.obj [("outDir", lit "dist"), ("assetsDir", lit "assets")])
    (.ref config, assign h config "build" (.ref build))
  else
    (.ref config, h)

/-! ## Observations -/

/-- The own property names of the object `v` refers to, in order. -/
def ownKeys (h : Heap) : Val → Option (List String)
  | .ref r =>
    match h[r]? with
    | some (.obj ps) => some (ps.map Prod.fst)
    | _ => none
  | .atom _ => none

/-- The member access `v.k` on an object. -/
def readField (h : Heap) (v : Val) (k : String) : Val :=
  match v with
  | .ref r =>
    match h[r]? with
    | some (.obj ps) => getProp ps k
    | _ => .atom .undefined
  | .atom _ => .atom .undefined

/-- A value with every reference followed: what a deep comparison of two
configuration objects looks at. -/
inductive Tree where
  | atom (a : Atom)
  | arr (elems : List Tree)
  | obj (props : List (String × Tree))

/-- All results, when none is missing. -/
def allSome {α : Type} : List (Option α) → Option (List α)
  | [] => some []
  | none :: _ => none
  | some a :: rest =>
    match allSome rest with
    | some as => some (a :: as)
    | none => none

/-- Pairing a name with a result. -/
def keyed {α : Type} (k : String) : Option α → Option (String × α)
  | some a => some (k, a)
  | none => none

/-- The tree below `v` in heap `h`, following references to depth `fuel`;
`none` when a reference dangles or lies deeper. -/
def snapshot : Nat → Heap → Val → Option Tree
  | _, _, .atom a => some (.atom a)
  | 0, _, .ref _ => none
  | fuel + 1, h, .ref r =>
    match h[r]? with
    | none => none
    | some (.arr vs) =>
      match allSome (vs.map fun v => snapshot fuel h v) with
      | some ts => some (.arr ts)
      | none => none
    | some (.obj ps) =>
      match allSome (ps.map fun kv => keyed kv.1 (snapshot fuel h kv.2)) with
      | some ts => some (.obj ts)
      | none => none

/-- Imported values used to run the callback on examples. -/
def sampleExternals : Externals where
  vue := "vite:vue"
  vueDevTools := "vite-plugin-vue-devtools"
  importMetaUrl := "file:///app/vite.config.js"
  URL := fun rel base => if rel = "./src" ∧ base = "file:///app/vite.config.js" then "file:///app/src" else base
  fileURLToPath := fun href => href.drop 7

/-- The argument the tool passes for `vite build`. -/
def buildArg : Props := [("command", lit "build"), ("mode", lit "production")]

/-- The argument the tool passes for the dev server. -/
def serveArg : Props := [("command", lit "serve"), ("mode", lit "development")]

/-- The path the alias `@` stands for:
`fileURLToPath(new URL('./src', import.meta.url))`. -/
def srcPath (E : Externals) : String := E.fileURLToPath (E.URL "./src" E.importMetaUrl)

/-- The `plugins` entry, read deeply. -/
def pluginsTree (E : Externals) : Tree :=
  .arr [.atom (.host E.vue), .atom (.host E.vueDevTools)]

/-- The `resolve` entry, read deeply. -/
def resolveTree (E : Externals) : Tree :=
  .obj [("alias", .obj [("@", .atom (.str (srcPath E)))])]

/-- The `build` entry, read deeply. -/
def buildTree : Tree :=
  .obj [("outDir", .atom (.str "dist")), ("assetsDir", .atom (.str "assets"))]

/-- The entries of the object literal bound to `config`, read deeply. -/
def literalEntries (E : Externals) : List (String × Tree) :=
  [("plugins", pluginsTree E), ("resolve", resolveTree E)]

/-- The cells the object literal bound to `config` occupies when the heap
holds `base` cells before, `entries` being the properties of `config`. -/
def literalCells (E : Externals) (base : Nat) (entries : Props) : List Cell :=
  [.arr [.atom (.host E.vue), .atom (.host E.vueDevTools)],
   .obj [("@", lit (srcPath E))],
   .obj [("alias", .ref (base + 1))],
   .obj entries]

/-- The cell of the object literal assigned to `config.build`. -/
def buildCell : Cell := .obj [("outDir", lit "dist"), ("assetsDir", lit "assets")]

/-- Whether the object `v` refers to has an own property `k`. -/
def hasKey (h : Heap) (v : Val) (k : String) : Bool :=
  match ownKeys h v with
  | some ks => ks.contains k
  | none => false

/-- Whether a result of the callback carries output-directory settings: a
`build` entry holding `outDir` and `assetsDir`. -/
def hasOutputSettings (out : Val × Heap) : Bool :=
  hasKey out.2 out.1 "build" &&
    (hasKey out.2 (readField out.2 out.1 "build") "outDir" &&
      hasKey out.2 (readField out.2 out.1 "build") "assetsDir")

/-! ## The heap after a call -/

theorem getElem?_fresh (h l : Heap) (i : Nat) : (h ++ l)[h.length + i]? = l[i]? := by
  rw [List.getElem?_append_right (Nat.le_add_right _ _), Nat.add_sub_cancel_left]

theorem set_fresh (h l : Heap) (i : Nat) (c : Cell) :
    (h ++ l).set (h.length + i) c = h ++ l.set i c := by
  rw [List.set_append_right _ _ (Nat.le_add_right _ _), Nat.add_sub_cancel_left]

theorem strictEquals_lit (v : Val) (s : String) :
    strictEquals v (lit s) = true ↔ v = lit s := by
  unfold lit
  rcases v with a | r
  · cases a <;> simp [strictEquals]
  · simp [strictEquals]

theorem getElem?_fresh_zero (h l : Heap) : (h ++ l)[h.length]? = l[0]? :=
  getElem?_fresh h l 0

theorem configFn_build (E : Externals) (arg : Props) (h : Heap)
    (hc : getProp arg "command" = lit "build") :
    configFn E arg h = (.ref (h.length + 3), h ++
      (literalCells E h.length [("plugins", .ref h.length), ("resolve", .ref (h.length + 2)),
        ("build", .ref (h.length + 4))] ++ [buildCell])) := by
  have hs : strictEquals (getProp arg "command") (lit "build") = true :=
    (strictEquals_lit _ _).2 hc
  simp only [configFn, alloc, hs, if_true, List.length_append, List.length_singleton,
    List.append_assoc, List.cons_append, List.nil_append, assign, getElem?_fresh, set_fresh,
    literalCells, buildCell, srcPath]
  simp [putProp]

theorem configFn_other (E : Externals) (arg : Props) (h : Heap)
    (hc : getProp arg "command" ≠ lit "build") :
    configFn E arg h = (.ref (h.length + 3), h ++
      literalCells E h.length [("plugins", .ref h.length), ("resolve", .ref (h.length + 2))]) := by
  have hs : strictEquals (getProp arg "command") (lit "build") = false := by
    cases hb : strictEquals (getProp arg "command") (lit "build")
    · rfl
    · exact absurd ((strictEquals_lit _ _).1 hb) hc
  simp only [configFn, alloc, hs, List.length_append, List.length_singleton,
    List.append_assoc, List.cons_append, List.nil_append, literalCells, srcPath]
  simp

theorem snapshot_arr (n : Nat) (h : Heap) (r : Ref) (vs : List Val)
    (hc : h[r]? = some (.arr vs)) :
    snapshot (n + 1) h (.ref r) =
      match allSome (vs.map fun v => snapshot n h v) with
      | some ts => some (.arr ts)
      | none => none := by
  rw [snapshot, hc]

theorem snapshot_obj (n : Nat) (h : Heap) (r : Ref) (ps : Props)
    (hc : h[r]? = some (.obj ps)) :
    snapshot (n + 1) h (.ref r) =
      match allSome (ps.map fun kv => keyed kv.1 (snapshot n h kv.2)) with
      | some ts => some (.obj ts)
      | none => none := by
  rw [snapshot, hc]

theorem snapshot_atom (n : Nat) (h : Heap) (a : Atom) :
    snapshot n h (.atom a) = some (.atom a) := by
  cases n <;> rfl

/-- Reading the plugin array at a fresh address. -/
theorem snapshot_plugins (E : Externals) (h l : Heap) (ps : Props) (n : Nat) :
    snapshot (n + 1) (h ++ (literalCells E h.length ps ++ l)) (.ref h.length) =
      some (pluginsTree E) := by
  rw [snapshot_arr n _ _ _ (by rw [getElem?_fresh_zero]; rfl)]
  simp [snapshot_atom, allSome, pluginsTree]

theorem snapshot_alias (E : Externals) (h l : Heap) (ps : Props) (n : Nat) :
    snapshot (n + 1) (h ++ (literalCells E h.length ps ++ l)) (.ref (h.length + 1)) =
      some (.obj [("@", .atom (.str (srcPath E)))]) := by
  rw [snapshot_obj n _ _ _ (by rw [getElem?_fresh]; rfl)]
  simp [snapshot_atom, allSome, keyed, lit]

theorem snapshot_resolve (E : Externals) (h l : Heap) (ps : Props) (n : Nat) :
    snapshot (n + 2) (h ++ (literalCells E h.length ps ++ l)) (.ref (h.length + 2)) =
      some (resolveTree E) := by
  rw [snapshot_obj (n + 1) _ _ _ (by rw [getElem?_fresh]; rfl)]
  simp [snapshot_alias, allSome, keyed, resolveTree]

theorem snapshot_build (E : Externals) (h l : Heap) (ps : Props) (n : Nat) :
    snapshot (n + 1) (h ++ (literalCells E h.length ps ++ (buildCell :: l)))
      (.ref (h.length + 4)) = some buildTree := by
  rw [snapshot_obj n _ _ [("outDir", lit "dist"), ("assetsDir", lit "assets")]
    (by rw [getElem?_fresh]; simp [literalCells, buildCell])]
  simp [snapshot_atom, allSome, keyed, lit, buildTree]

theorem snapshot_config_other (E : Externals) (h l : Heap) (n : Nat) :
    snapshot (n + 3) (h ++ (literalCells E h.length
        [("plugins", .ref h.length), ("resolve", .ref (h.length + 2))] ++ l))
      (.ref (h.length + 3)) = some (.obj (literalEntries E)) := by
  rw [snapshot_obj (n + 2) _ _ [("plugins", .ref h.length), ("resolve", .ref (h.length + 2))]
    (by rw [getElem?_fresh]; simp [literalCells])]
  simp [snapshot_plugins, snapshot_resolve, allSome, keyed, literalEntries]

theorem snapshot_config_build (E : Externals) (h l : Heap) (n : Nat) :
    snapshot (n + 3) (h ++ (literalCells E h.length
        [("plugins", .ref h.length), ("resolve", .ref (h.length + 2)),
          ("build", .ref (h.length + 4))] ++ (buildCell :: l)))
      (.ref (h.length + 3)) = some (.obj (literalEntries E ++ [("build", buildTree)])) := by
  rw [snapshot_obj (n + 2) _ _ [("plugins", .ref h.length), ("resolve", .ref (h.length + 2)),
      ("build", .ref (h.length + 4))]
    (by rw [getElem?_fresh]; simp [literalCells])]
  simp [snapshot_plugins, snapshot_resolve, snapshot_build, allSome, keyed, literalEntries]

theorem lookup_config (E : Externals) (h l : Heap) (ps : Props) :
    (h ++ (literalCells E h.length ps ++ l))[h.length + 3]? = some (.obj ps) := by
  rw [getElem?_fresh]; simp [literalCells]

theorem lookup_resolve (E : Externals) (h l : Heap) (ps : Props) :
    (h ++ (literalCells E h.length ps ++ l))[h.length + 2]? =
      some (.obj [("alias", .ref (h.length + 1))]) := by
  rw [getElem?_fresh]; simp [literalCells]

theorem lookup_alias (E : Externals) (h l : Heap) (ps : Props) :
    (h ++ (literalCells E h.length ps ++ l))[h.length + 1]? =
      some (.obj [("@", lit (srcPath E))]) := by
  rw [getElem?_fresh]; simp [literalCells]

theorem lookup_build (E : Externals) (h l : Heap) (ps : Props) :
    (h ++ (literalCells E h.length ps ++ (buildCell :: l)))[h.length + 4]? =
      some (.obj [("outDir", lit "dist"), ("assetsDir", lit "assets")]) := by
  rw [getElem?_fresh]; simp [literalCells, buildCell]

theorem readField_obj (h : Heap) (r : Ref) (ps : Props) (k : String)
    (hc : h[r]? = some (.obj ps)) : readField h (.ref r) k = getProp ps k := by
  simp only [readField, hc]

theorem ownKeys_obj (h : Heap) (r : Ref) (ps : Props)
    (hc : h[r]? = some (.obj ps)) : ownKeys h (.ref r) = some (ps.map Prod.fst) := by
  simp only [ownKeys, hc]

theorem hasKey_obj (h : Heap) (r : Ref) (ps : Props) (k : String)
    (hc : h[r]? = some (.obj ps)) : hasKey h (.ref r) k = (ps.map Prod.fst).contains k := by
  simp only [hasKey, ownKeys_obj h r ps hc]

/-- Every call leaves a tree of the same shape, whatever the heap before. -/
theorem snapshot_configFn (E : Externals) (arg : Props) (h : Heap) (n : Nat) :
    snapshot (n + 3) (configFn E arg h).2 (configFn E arg h).1 =
      some (.obj (if getProp arg "command" = lit "build"
        then literalEntries E ++ [("build", buildTree)] else literalEntries E)) := by
  by_cases hc : getProp arg "command" = lit "build"
  · rw [configFn_build E arg h hc, if_pos hc]
    exact snapshot_config_build E h [] n
  · rw [configFn_other E arg h hc, if_neg hc]
    have := snapshot_config_other E h [] n
    rwa [List.append_nil] at this

/-- What the build branch leaves behind. -/
theorem build_branch_facts (E : Externals) (arg : Props) (h : Heap) (n : Nat)
    (hc : getProp arg "command" = lit "build") :
    hasKey (configFn E arg h).2 (configFn E arg h).1 "build" = true ∧
    ownKeys (configFn E arg h).2 (readField (configFn E arg h).2 (configFn E arg h).1 "build") =
      some ["outDir", "assetsDir"] ∧
    snapshot (n + 1) (configFn E arg h).2
        (readField (configFn E arg h).2 (configFn E arg h).1 "build") =
      some (.obj [("outDir", .atom (.str "dist")), ("assetsDir", .atom (.str "assets"))]) := by
  rw [configFn_build E arg h hc]
  have hb : readField (h ++ (literalCells E h.length [("plugins", .ref h.length),
      ("resolve", .ref (h.length + 2)), ("build", .ref (h.length + 4))] ++ [buildCell]))
      (.ref (h.length + 3)) "build" = .ref (h.length + 4) := by
    rw [readField_obj _ _ _ _ (lookup_config E h _ _)]
    simp [getProp]
  simp only [hb]
  refine ⟨?_, ?_, ?_⟩
  · rw [hasKey_obj _ _ _ _ (lookup_config E h _ _)]
    simp
  · rw [ownKeys_obj _ _ _ (lookup_build E h [] _)]
    rfl
  · exact snapshot_build E h [] _ n

/-- What the other branch leaves behind. -/
theorem other_branch_facts (E : Externals) (arg : Props) (h : Heap)
    (hc : getProp arg "command" ≠ lit "build") :
    ownKeys (configFn E arg h).2 (configFn E arg h).1 = some ["plugins", "resolve"] ∧
    hasKey (configFn E arg h).2 (configFn E arg h).1 "build" = false ∧
    readField (configFn E arg h).2 (configFn E arg h).1 "build" = .atom .undefined ∧
    hasOutputSettings (configFn E arg h) = false := by
  rw [configFn_other E arg h hc]
  have hl := lookup_config E h [] [("plugins", .ref h.length), ("resolve", .ref (h.length + 2))]
  rw [List.append_nil] at hl
  have hk : hasKey (h ++ literalCells E h.length
      [("plugins", .ref h.length), ("resolve", .ref (h.length + 2))])
      (.ref (h.length + 3)) "build" = false := by
    rw [hasKey_obj _ _ _ _ hl]
    simp
  refine ⟨?_, hk, ?_, ?_⟩
  · rw [ownKeys_obj _ _ _ hl]
    rfl
  · rw [readField_obj _ _ _ _ hl]
    simp [getProp]
  · simp only [hasOutputSettings, hk, Bool.false_and]

/-- The entries every result has, read in a heap that holds the cells of
the object literal. -/
theorem literal_facts (E : Externals) (h l : Heap) (ps : Props) (n : Nat)
    (hp : getProp ps "plugins" = .ref h.length)
    (hr : getProp ps "resolve" = .ref (h.length + 2)) :
    snapshot (n + 1) (h ++ (literalCells E h.length ps ++ l))
        (readField (h ++ (literalCells E h.length ps ++ l)) (.ref (h.length + 3)) "plugins") =
      some (pluginsTree E) ∧
    snapshot (n + 2) (h ++ (literalCells E h.length ps ++ l))
        (readField (h ++ (literalCells E h.length ps ++ l)) (.ref (h.length + 3)) "resolve") =
      some (resolveTree E) ∧
    ownKeys (h ++ (literalCells E h.length ps ++ l))
        (readField (h ++ (literalCells E h.length ps ++ l)) (.ref (h.length + 3)) "resolve") =
      some ["alias"] ∧
    ownKeys (h ++ (literalCells E h.length ps ++ l))
        (readField (h ++ (literalCells E h.length ps ++ l))
          (readField (h ++ (literalCells E h.length ps ++ l)) (.ref (h.length + 3)) "resolve")
          "alias") = some ["@"] ∧
    readField (h ++ (literalCells E h.length ps ++ l))
        (readField (h ++ (literalCells E h.length ps ++ l))
          (readField (h ++ (literalCells E h.length ps ++ l)) (.ref (h.length + 3)) "resolve")
          "alias") "@" = lit (srcPath E) := by
  have h1 : readField (h ++ (literalCells E h.length ps ++ l)) (.ref (h.length + 3)) "plugins" =
      .ref h.length := by
    rw [readField_obj _ _ _ _ (lookup_config E h l ps), hp]
  have h2 : readField (h ++ (literalCells E h.length ps ++ l)) (.ref (h.length + 3)) "resolve" =
      .ref (h.length + 2) := by
    rw [readField_obj _ _ _ _ (lookup_config E h l ps), hr]
  have h3 : readField (h ++ (literalCells E h.length ps ++ l)) (.ref (h.length + 2)) "alias" =
      .ref (h.length + 1) := by
    rw [readField_obj _ _ _ _ (lookup_resolve E h l ps)]
    simp [getProp]
  rw [h1, h2, h3]
  refine ⟨snapshot_plugins E h l ps n, snapshot_resolve E h l ps n, ?_, ?_, ?_⟩
  · rw [ownKeys_obj _ _ _ (lookup_resolve E h l ps)]
    rfl
  · rw [ownKeys_obj _ _ _ (lookup_alias E h l ps)]
    rfl
  · rw [readField_obj _ _ _ _ (lookup_alias E h l ps)]
    simp [getProp]

/-- The result is the object allocated fourth, in either branch. -/
theorem configFn_ref (E : Externals) (arg : Props) (h : Heap) :
    (configFn E arg h).1 = .ref (h.length + 3) := by
  by_cases hc : getProp arg "command" = lit "build"
  · rw [configFn_build E arg h hc]
  · rw [configFn_other E arg h hc]

/-- A call only adds cells: the heap before is a prefix of the heap after. -/
theorem configFn_extends (E : Externals) (arg : Props) (h : Heap) :
    ∃ l, (configFn E arg h).2 = h ++ l := by
  by_cases hc : getProp arg "command" = lit "build"
  · rw [configFn_build E arg h hc]
    exact ⟨_, rfl⟩
  · rw [configFn_other E arg h hc]
    exact ⟨_, rfl⟩

/-- The entries every result has, in either branch. -/
theorem common_facts (E : Externals) (arg : Props) (h : Heap) (n : Nat) :
    snapshot (n + 1) (configFn E arg h).2
        (readField (configFn E arg h).2 (configFn E arg h).1 "plugins") =
      some (pluginsTree E) ∧
    snapshot (n + 2) (configFn E arg h).2
        (readField (configFn E arg h).2 (configFn E arg h).1 "resolve") =
      some (resolveTree E) ∧
    ownKeys (configFn E arg h).2
        (readField (configFn E arg h).2 (configFn E arg h).1 "resolve") = some ["alias"] ∧
    ownKeys (configFn E arg h).2
        (readField (configFn E arg h).2
          (readField (configFn E arg h).2 (configFn E arg h).1 "resolve") "alias") =
      some ["@"] ∧
    readField (configFn E arg h).2
        (readField (configFn E arg h).2
          (readField (configFn E arg h).2 (configFn E arg h).1 "resolve") "alias") "@" =
      lit (srcPath E) := by
  by_cases hc : getProp arg "command" = lit "build"
  · rw [configFn_build E arg h hc]
    exact literal_facts E h [buildCell] _ n (by simp [getProp]) (by simp [getProp])
  · rw [configFn_other E arg h hc]
    have := literal_facts E h [] [("plugins", .ref h.length), ("resolve", .ref (h.length + 2))] n
      (by simp [getProp]) (by simp [getProp])
    rwa [List.append_nil] at this

/-- The top-level property names, in either branch. -/
theorem ownKeys_configFn (E : Externals) (arg : Props) (h : Heap) :
    ownKeys (configFn E arg h).2 (configFn E arg h).1 =
      some (if getProp arg "command" = lit "build"
        then ["plugins", "resolve", "build"] else ["plugins", "resolve"]) := by
  by_cases hc : getProp arg "command" = lit "build"
  · rw [configFn_build E arg h hc, if_pos hc, ownKeys_obj _ _ _ (lookup_config E h _ _)]
    rfl
  · rw [if_neg hc]
    exact (other_branch_facts E arg h hc).1

/-- A result of the build branch reads the same after a later call. -/
theorem build_result_kept (E : Externals) (a b : Props) (h : Heap) (n : Nat)
    (ha : getProp a "command" = lit "build") :
    snapshot (n + 3) (configFn E b (configFn E a h).2).2 (configFn E a h).1 =
      some (.obj (literalEntries E ++ [("build", buildTree)])) := by
  obtain ⟨l, hl⟩ := configFn_extends E b (configFn E a h).2
  rw [hl, configFn_build E a h ha]
  simp only [List.append_assoc, List.singleton_append]
  exact snapshot_config_build E h l n

/-- A later call returns an object at a higher address. -/
theorem later_ref_differs (E : Externals) (a b : Props) (h : Heap) :
    (configFn E b (configFn E a h).2).1 ≠ (configFn E a h).1 := by
  have hlen : h.length < (configFn E a h).2.length := by
    by_cases hc : getProp a "command" = lit "build"
    · rw [configFn_build E a h hc]
      simp [literalCells]
    · rw [configFn_other E a h hc]
      simp [literalCells]
  rw [configFn_ref, configFn_ref]
  intro he
  have hr : (configFn E a h).2.length + 3 = h.length + 3 := Val.ref.inj he
  omega

/-- No address from `h.length` on is an address of `h`. -/
theorem not_in_heap (h : Heap) (i : Nat) : h[h.length + i]? = none :=
  List.getElem?_eq_none (Nat.le_add_right _ _)

/-- Every reference the result holds points to a cell made by the call. -/
theorem fields_fresh (E : Externals) (arg : Props) (h : Heap) (k : String) (r : Ref)
    (hk : readField (configFn E arg h).2 (configFn E arg h).1 k = .ref r) :
    h.length ≤ r ∧ h[r]? = none := by
  have hge : h.length ≤ r := by
    by_cases hc : getProp arg "command" = lit "build"
    · rw [configFn_build E arg h hc] at hk
      rw [readField_obj _ _ _ _ (lookup_config E h _ _)] at hk
      simp only [getProp] at hk
      split_ifs at hk
      · have hr : h.length = r := Val.ref.inj hk
        omega
      · have hr : h.length + 2 = r := Val.ref.inj hk
        omega
      · have hr : h.length + 4 = r := Val.ref.inj hk
        omega
    · rw [configFn_other E arg h hc] at hk
      have hl := lookup_config E h []
        [("plugins", .ref h.length), ("resolve", .ref (h.length + 2))]
      rw [List.append_nil] at hl
      rw [readField_obj _ _ _ _ hl] at hk
      simp only [getProp] at hk
      split_ifs at hk
      · have hr : h.length = r := Val.ref.inj hk
        omega
      · have hr : h.length + 2 = r := Val.ref.inj hk
        omega
  exact ⟨hge, List.getElem?_eq_none hge⟩

/-! ## The build branch -/

/-- C1: when the `command` field of the argument is the string 'build', the
returned object has a `build` entry, and that entry is an object with exactly
the two properties `outDir: 'dist'` and `assetsDir: 'assets'`. -/
theorem build_entry_attached (E : Externals) (arg : Props) (h : Heap) (n : Nat)
    (hc : getProp arg "command" = lit "build") :
    hasKey (configFn E arg h).2 (configFn E arg h).1 "build" = true ∧
    ownKeys (configFn E arg h).2 (readField (configFn E arg h).2 (configFn E arg h).1 "build") =
      some ["outDir", "assetsDir"] ∧
    snapshot (n + 1) (configFn E arg h).2
        (readField (configFn E arg h).2 (configFn E arg h).1 "build") =
      some (.obj [("outDir", .atom (.str "dist")), ("assetsDir", .atom (.str "assets"))]) :=
  build_branch_facts E arg h n hc

/-- C1 at the argument of `vite build`, on the empty heap. -/
theorem build_entry_attached_witness :
    getProp buildArg "command" = lit "build" ∧
    hasKey (configFn sampleExternals buildArg []).2 (configFn sampleExternals buildArg []).1
      "build" = true ∧
    ownKeys (configFn sampleExternals buildArg []).2
        (readField (configFn sampleExternals buildArg []).2
          (configFn sampleExternals buildArg []).1 "build") =
      some ["outDir", "assetsDir"] ∧
    snapshot 1 (configFn sampleExternals buildArg []).2
        (readField (configFn sampleExternals buildArg []).2
          (configFn sampleExternals buildArg []).1 "build") =
      some (.obj [("outDir", .atom (.str "dist")), ("assetsDir", .atom (.str "assets"))]) :=
  ⟨by decide, build_entry_attached sampleExternals buildArg [] 0 (by decide)⟩

/-- C2: when the `command` field of the argument is anything but the string
'build' (another string, another kind of value, or absent), the returned
object has exactly the entries `plugins` and `resolve`: it has no `build`
entry, and reading `build` gives `undefined`. -/
theorem no_build_entry_otherwise (E : Externals) (arg : Props) (h : Heap)
    (hc : getProp arg "command" ≠ lit "build") :
    ownKeys (configFn E arg h).2 (configFn E arg h).1 = some ["plugins", "resolve"] ∧
    hasKey (configFn E arg h).2 (configFn E arg h).1 "build" = false ∧
    readField (configFn E arg h).2 (configFn E arg h).1 "build" = .atom .undefined ∧
    hasOutputSettings (configFn E arg h) = false :=
  other_branch_facts E arg h hc

/-- C2 at the argument of the dev server and at the commands 'Build',
'build ', the empty string and an absent `command`, on the empty heap. -/
theorem no_build_entry_otherwise_witness :
    (getProp serveArg "command" ≠ lit "build" ∧
      ownKeys (configFn sampleExternals serveArg []).2 (configFn sampleExternals serveArg []).1 =
        some ["plugins", "resolve"] ∧
      hasKey (configFn sampleExternals serveArg []).2 (configFn sampleExternals serveArg []).1
        "build" = false ∧
      readField (configFn sampleExternals serveArg []).2
        (configFn sampleExternals serveArg []).1 "build" = .atom .undefined ∧
      hasOutputSettings (configFn sampleExternals serveArg []) = false) ∧
    (getProp [("command", lit "Build")] "command" ≠ lit "build" ∧
      hasOutputSettings (configFn sampleExternals [("command", lit "Build")] []) = false) ∧
    (getProp [("command", lit "build ")] "command" ≠ lit "build" ∧
      hasOutputSettings (configFn sampleExternals [("command", lit "build ")] []) = false) ∧
    (getProp [("command", lit "")] "command" ≠ lit "build" ∧
      hasOutputSettings (configFn sampleExternals [("command", lit "")] []) = false) ∧
    (getProp [("mode", lit "build")] "command" ≠ lit "build" ∧
      hasOutputSettings (configFn sampleExternals [("mode", lit "build")] []) = false) :=
  ⟨⟨by decide, no_build_entry_otherwise sampleExternals serveArg [] (by decide)⟩,
   ⟨by decide, (no_build_entry_otherwise sampleExternals _ [] (by decide)).2.2.2⟩,
   ⟨by decide, (no_build_entry_otherwise sampleExternals _ [] (by decide)).2.2.2⟩,
   ⟨by decide, (no_build_entry_otherwise sampleExternals _ [] (by decide)).2.2.2⟩,
   ⟨by decide, (no_build_entry_otherwise sampleExternals _ [] (by decide)).2.2.2⟩⟩

/-! ## Which field selects the branch -/

/-- C3, as stated, fails: with `mode` equal to 'build' and `command` equal to
'serve' the result carries no output-directory settings, and with `mode`
equal to 'development' and `command` equal to 'build' it carries them. -/
theorem mode_does_not_select_branch :
    (getProp [("command", lit "serve"), ("mode", lit "build")] "mode" = lit "build" ∧
      hasOutputSettings
        (configFn sampleExternals [("command", lit "serve"), ("mode", lit "build")] []) = false) ∧
    (getProp [("command", lit "build"), ("mode", lit "development")] "mode" ≠ lit "build" ∧
      hasOutputSettings
        (configFn sampleExternals [("command", lit "build"), ("mode", lit "development")] []) =
          true) := by
  decide

/-- C3, amended: the result carries output-directory settings exactly when
the `command` field of the argument is the string 'build'. -/
theorem command_selects_branch (E : Externals) (arg : Props) (h : Heap) :
    hasOutputSettings (configFn E arg h) = true ↔ getProp arg "command" = lit "build" := by
  constructor
  · intro hs
    by_contra hc
    rw [(other_branch_facts E arg h hc).2.2.2] at hs
    exact Bool.false_ne_true hs
  · intro hc
    have hb := build_branch_facts E arg h 0 hc
    rw [hasOutputSettings, hb.1]
    simp only [hasKey, hb.2.1]
    decide

/-! ## The shape of the result -/

/-- C4: for every argument the top-level property names of the result are
`plugins`, `resolve` when `command` is not 'build' and `plugins`, `resolve`,
`build` when it is; in both cases `plugins` is the array of the result of
`vue()` followed by the result of `vueDevTools()`, and `resolve.alias` is an
object whose only property is '@', holding
`fileURLToPath(new URL('./src', import.meta.url))`. -/
theorem config_shape (E : Externals) (arg : Props) (h : Heap) (n : Nat) :
    ownKeys (configFn E arg h).2 (configFn E arg h).1 =
      some (if getProp arg "command" = lit "build"
        then ["plugins", "resolve", "build"] else ["plugins", "resolve"]) ∧
    snapshot (n + 1) (configFn E arg h).2
        (readField (configFn E arg h).2 (configFn E arg h).1 "plugins") =
      some (.arr [.atom (.host E.vue), .atom (.host E.vueDevTools)]) ∧
    ownKeys (configFn E arg h).2
        (readField (configFn E arg h).2
          (readField (configFn E arg h).2 (configFn E arg h).1 "resolve") "alias") =
      some ["@"] ∧
    readField (configFn E arg h).2
        (readField (configFn E arg h).2
          (readField (configFn E arg h).2 (configFn E arg h).1 "resolve") "alias") "@" =
      lit (E.fileURLToPath (E.URL "./src" E.importMetaUrl)) :=
  ⟨ownKeys_configFn E arg h, (common_facts E arg h n).1, (common_facts E arg h n).2.2.2.1,
    (common_facts E arg h n).2.2.2.2⟩

/-! ## Calls do not share state -/

/-- C5: the callback is stateless and deterministic.  Called with the same
argument on any two heaps it returns objects that read the same; it changes
no cell that existed before the call; and after a call in build mode, a call
in another mode returns a new object without a `build` entry that reads as
if the first call had not happened, while the first result still reads as
before.  Each call builds a fresh object: the result is the cell at address
`h.length + 3`, which is no address of the heap `h` before the call, every
reference stored in the result points to a cell that was not in `h` either,
and a second call with the same argument returns another object than the
first. -/
theorem calls_share_no_state (E : Externals) (arg a b : Props) (h h' : Heap) (n : Nat)
    (ha : getProp a "command" = lit "build") (hb : getProp b "command" ≠ lit "build") :
    (∃ t, snapshot (n + 3) (configFn E arg h).2 (configFn E arg h).1 = some t ∧
      snapshot (n + 3) (configFn E arg h').2 (configFn E arg h').1 = some t) ∧
    (∃ l, (configFn E arg h).2 = h ++ l) ∧
    (configFn E b (configFn E a h).2).1 ≠ (configFn E a h).1 ∧
    hasKey (configFn E b (configFn E a h).2).2 (configFn E b (configFn E a h).2).1 "build" =
      false ∧
    snapshot (n + 3) (configFn E b (configFn E a h).2).2 (configFn E b (configFn E a h).2).1 =
      snapshot (n + 3) (configFn E b h).2 (configFn E b h).1 ∧
    snapshot (n + 3) (configFn E b h).2 (configFn E b h).1 =
      some (.obj [("plugins", pluginsTree E), ("resolve", resolveTree E)]) ∧
    snapshot (n + 3) (configFn E b (configFn E a h).2).2 (configFn E a h).1 =
      snapshot (n + 3) (configFn E a h).2 (configFn E a h).1 ∧
    snapshot (n + 3) (configFn E a h).2 (configFn E a h).1 =
      some (.obj [("plugins", pluginsTree E), ("resolve", resolveTree E),
        ("build", buildTree)]) ∧
    (configFn E arg h).1 = .ref (h.length + 3) ∧
    h[h.length + 3]? = none ∧
    (∀ k r, readField (configFn E arg h).2 (configFn E arg h).1 k = .ref r →
      h.length ≤ r ∧ h[r]? = none) ∧
    (configFn E arg (configFn E arg h).2).1 ≠ (configFn E arg h).1 ∧
    (configFn E b (configFn E b h).2).1 ≠ (configFn E b h).1 := by
  refine ⟨⟨_, snapshot_configFn E arg h n, snapshot_configFn E arg h' n⟩,
    configFn_extends E arg h, later_ref_differs E a b h,
    (other_branch_facts E b _ hb).2.1, ?_, ?_, ?_, ?_,
    configFn_ref E arg h, not_in_heap h 3, fields_fresh E arg h,
    later_ref_differs E arg arg h, later_ref_differs E b b h⟩
  · rw [snapshot_configFn, snapshot_configFn]
  · rw [snapshot_configFn, if_neg hb]
    rfl
  · rw [build_result_kept E a b h n ha, snapshot_configFn, if_pos ha]
  · rw [snapshot_configFn, if_pos ha]
    rfl

/-- C5 at a build call followed by a dev-server call, and at two dev-server
calls in a row, from the empty heap. -/
theorem calls_share_no_state_witness :
    (getProp buildArg "command" = lit "build" ∧ getProp serveArg "command" ≠ lit "build") ∧
    (configFn sampleExternals serveArg (configFn sampleExternals buildArg []).2).1 ≠
      (configFn sampleExternals buildArg []).1 ∧
    hasKey (configFn sampleExternals serveArg (configFn sampleExternals buildArg []).2).2
      (configFn sampleExternals serveArg (configFn sampleExternals buildArg []).2).1 "build" =
      false ∧
    snapshot 3 (configFn sampleExternals serveArg (configFn sampleExternals buildArg []).2).2
        (configFn sampleExternals serveArg (configFn sampleExternals buildArg []).2).1 =
      snapshot 3 (configFn sampleExternals serveArg []).2
        (configFn sampleExternals serveArg []).1 ∧
    (configFn sampleExternals serveArg []).1 = .ref 3 ∧
    (configFn sampleExternals serveArg (configFn sampleExternals serveArg []).2).1 ≠
      (configFn sampleExternals serveArg []).1 :=
  ⟨⟨by decide, by decide⟩,
    (calls_share_no_state sampleExternals buildArg buildArg serveArg [] [] 0
      (by decide) (by decide)).2.2.1,
    (calls_share_no_state sampleExternals buildArg buildArg serveArg [] [] 0
      (by decide) (by decide)).2.2.2.1,
    (calls_share_no_state sampleExternals buildArg buildArg serveArg [] [] 0
      (by decide) (by decide)).2.2.2.2.1,
    (calls_share_no_state sampleExternals serveArg buildArg serveArg [] [] 0
      (by decide) (by decide)).2.2.2.2.2.2.2.2.1,
    (calls_share_no_state sampleExternals serveArg buildArg serveArg [] [] 0
      (by decide) (by decide)).2.2.2.2.2.2.2.2.2.2.2.2⟩

/-! ## What the build branch changes -/

/-- C6: for an argument whose `command` is 'build' and one whose `command` is
anything else, the `plugins` entries of the two results read the same, the
`resolve` entries read the same, and the result of the first reads as the
result of the second with the one entry `build` added after them. -/
theorem build_only_adds_entry (E : Externals) (a b : Props) (h h' : Heap) (n : Nat)
    (ha : getProp a "command" = lit "build") (hb : getProp b "command" ≠ lit "build") :
    (∃ t, snapshot (n + 1) (configFn E a h).2
          (readField (configFn E a h).2 (configFn E a h).1 "plugins") = some t ∧
        snapshot (n + 1) (configFn E b h').2
          (readField (configFn E b h').2 (configFn E b h').1 "plugins") = some t) ∧
    (∃ t, snapshot (n + 2) (configFn E a h).2
          (readField (configFn E a h).2 (configFn E a h).1 "resolve") = some t ∧
        snapshot (n + 2) (configFn E b h').2
          (readField (configFn E b h').2 (configFn E b h').1 "resolve") = some t) ∧
    (∃ entries t, snapshot (n + 3) (configFn E b h').2 (configFn E b h').1 =
          some (.obj entries) ∧
        snapshot (n + 3) (configFn E a h).2 (configFn E a h).1 =
          some (.obj (entries ++ [("build", t)]))) ∧
    ownKeys (configFn E b h').2 (configFn E b h').1 = some ["plugins", "resolve"] ∧
    ownKeys (configFn E a h).2 (configFn E a h).1 = some (["plugins", "resolve"] ++ ["build"]) := by
  refine ⟨⟨_, (common_facts E a h n).1, (common_facts E b h' n).1⟩,
    ⟨_, (common_facts E a h n).2.1, (common_facts E b h' n).2.1⟩,
    ⟨literalEntries E, buildTree, ?_, ?_⟩, ?_, ?_⟩
  · rw [snapshot_configFn, if_neg hb]
  · rw [snapshot_configFn, if_pos ha]
  · rw [ownKeys_configFn, if_neg hb]
  · rw [ownKeys_configFn, if_pos ha]
    rfl

/-- C6 at the argument of `vite build` against that of the dev server. -/
theorem build_only_adds_entry_witness :
    (getProp buildArg "command" = lit "build" ∧ getProp serveArg "command" ≠ lit "build") ∧
    ownKeys (configFn sampleExternals serveArg []).2 (configFn sampleExternals serveArg []).1 =
      some ["plugins", "resolve"] ∧
    ownKeys (configFn sampleExternals buildArg []).2 (configFn sampleExternals buildArg []).1 =
      some (["plugins", "resolve"] ++ ["build"]) :=
  ⟨⟨by decide, by decide⟩,
    (build_only_adds_entry sampleExternals buildArg serveArg [] [] 0
      (by decide) (by decide)).2.2.2⟩

/-! ## The field `mode` -/

/-- C7: two arguments with the same `command` give the same result whatever
their `mode` fields are: on the same heap the same reference and the same
heap after the call, and on any two heaps objects that read the same. -/
theorem mode_has_no_influence (E : Externals) (a b : Props) (h h' : Heap) (n : Nat)
    (hab : getProp a "command" = getProp b "command") :
    configFn E a h = configFn E b h ∧
    ∃ t, snapshot (n + 3) (configFn E a h).2 (configFn E a h).1 = some t ∧
      snapshot (n + 3) (configFn E b h').2 (configFn E b h').1 = some t := by
  refine ⟨?_, _, snapshot_configFn E a h n, ?_⟩
  · simp only [configFn, hab]
  · rw [snapshot_configFn, hab]

/-- C7 at two dev-server arguments, one with `mode` equal to 'build' and one
without `mode`. -/
theorem mode_has_no_influence_witness :
    getProp [("command", lit "serve"), ("mode", lit "build")] "command" =
      getProp [("command", lit "serve")] "command" ∧
    configFn sampleExternals [("command", lit "serve"), ("mode", lit "build")] [] =
      configFn sampleExternals [("command", lit "serve")] [] :=
  ⟨by decide, (mode_has_no_influence sampleExternals
    [("command", lit "serve"), ("mode", lit "build")] [("command", lit "serve")] [] [] 0
    (by decide)).1⟩

end ViteConfig
